import Mathlib

/-!
Shallow embedding of the audit-agent pattern-matching and cross-function
detection engine (local_db.py, call_graph.py, pattern_matcher.py,
cache_manager.py), together with theorems settling the frozen claims.

Modelling conventions:
* Python floats are modelled as rationals (ℚ); float rounding is not modelled.
* SQLite rows are modelled as typed records mirroring the `patterns` schema and
  the values `add_pattern` actually stores in each column.
* Python exceptions are modelled with `Except String`; the error string is the
  Python exception rendering.
* Dictionaries with a fixed key set are modelled as structures; Python dicts
  keyed by strings (file systems, call graphs) as association lists in
  insertion order.
-/

/-! ## Python string primitives -/

/-- ASCII lower-casing of one character, as `str.lower` acts on the ASCII
identifiers and category labels appearing in this codebase. -/
def charLower (c : Char) : Char :=
  if 'A' ≤ c ∧ c ≤ 'Z' then Char.ofNat (c.toNat + 32) else c

/-- Models Python `s.lower()` (ASCII range). -/
def pyLower (s : String) : String := ⟨s.data.map charLower⟩

/-- Leading-match test: the first list is a leading segment of the second. -/
def leadEq : List Char → List Char → Bool
  | [], _ => true
  | _ :: _, [] => false
  | a :: as, b :: bs => a == b && leadEq as bs

/-- Substring occurrence test on character lists. -/
def subAt : List Char → List Char → Bool
  | n, [] => leadEq n []
  | n, h :: t => leadEq n (h :: t) || subAt n t

/-- Models Python `needle in hay` for strings (substring containment). -/
def pyInStr (needle hay : String) : Bool := subAt needle.data hay.data

/-- Models Python `repr` of a list of strings, e.g. `['a', 'b']`, as produced
by `str(...)` on a list in call_graph.py (quotes inside items not modelled;
the detectors only probe for fixed lowercase substrings). -/
def pyReprStrList (l : List String) : String :=
  "[" ++ String.intercalate ", " (l.map (fun s => "'" ++ s ++ "'")) ++ "]"

/-! ## Numeric primitives -/

/-- Dot product of two equal-length vectors (models `np.dot` on the stored
embedding matrix rows; trailing elements of a longer vector are ignored). -/
def dotQ : List ℚ → List ℚ → ℚ
  | a :: as, b :: bs => a * b + dotQ as bs
  | _, _ => 0

/-- Exact natural square root when `n` is a perfect square. -/
def natSqrtExact (n : ℕ) : Option ℕ := (List.range (n + 1)).find? (fun k => k * k == n)

/-- Models `np.linalg.norm`'s square root on rationals. It is exact on
perfect-square rationals; on other inputs it returns 0, which no theorem
below relies on: every concrete instance uses vectors of perfect-square
norm, and the universally quantified theorems do not depend on the values. -/
def ratSqrt (q : ℚ) : ℚ :=
  match natSqrtExact q.num.toNat, natSqrtExact q.den with
  | some a, some b => (a : ℚ) / (b : ℚ)
  | _, _ => 0

/-! ## Stable sorting (Python `list.sort` and a deterministic `np.argsort`) -/

/-- Insert `x` into a sorted list: `pass x y = true` means the inserted
element moves past `y` (so `y` stays in front of it). -/
def insertBy {α : Type} (pass : α → α → Bool) (x : α) : List α → List α
  | [] => [x]
  | y :: ys => if pass x y then y :: insertBy pass x ys else x :: y :: ys

/-- Stable insertion sort driven by `pass` (see `insertBy`). -/
def stableSort {α : Type} (pass : α → α → Bool) : List α → List α
  | [] => []
  | x :: xs => insertBy pass x (stableSort pass xs)

/-- Stable ascending argsort of a value list, models `np.argsort`
(deterministic model: ties keep index order). -/
def argsortAsc (vals : List ℚ) : List ℕ :=
  stableSort (fun i j => decide (vals.getD j 0 < vals.getD i 0)) (List.range vals.length)

/-- Models the Python slice `l[-m:]` (note `l[-0:]` is the whole list). -/
def pySliceLast {α : Type} (m : ℕ) (l : List α) : List α :=
  if m = 0 then l else l.drop (l.length - m)

/-! ## LocalDB (local_db.py)

The `patterns` table schema (the first 13 of the 14 columns of `_init_db`;
`created_at` is auto-filled and read by nothing) and the values a row would
carry per column — `add_pattern`'s own insert in fact always fails (see
`add_pattern`), so persisted rows stem from whatever else wrote the
database file.  `preconditions` and `code_indicators` are persisted with
`json.dumps` of a list of strings and round-trip through `json.loads`; the
embedding is persisted as the float32 byte buffer of the encoder output
and round-trips through `np.frombuffer` (float precision not modelled). -/

structure PatternRow where
  id : String := ""
  vuln_class : String := "Unknown"
  invariant : String := ""
  break_condition : String := ""
  preconditions : List String := []
  code_indicators : List String := []
  embedding : List ℚ := []
  severity : String := "Medium"
  quality_score : ℚ := 0
  finders_count : ℤ := 1
  raw_title : String := ""
  source_link : String := ""
  protocol_category : String := ""

/-- One entry of `_vector_cache["data"]`: the dict literal built in
`load_all_vectors`.  The `SELECT` there returns 10 columns
`(0) id, (1) invariant, (2) break_condition, (3) code_indicators,
(4) embedding, (5) severity, (6) finders_count, (7) quality_score,
(8) protocol_category, (9) preconditions`, but the dict reads
`severity` from `row[4]`, `finders_count` from `row[5]`,
`quality_score` from `row[6]` and `protocol_category` from `row[7]`,
one position short of the columns those names refer to.  Each field type
below is the type of the value the source actually stores in that key. -/
structure DataEntry where
  id : String
  invariant : String
  break_condition : String
  indicators : List String
  severity : List ℚ
  finders_count : String
  quality_score : ℤ
  protocol_category : ℚ
  preconditions : List String

/-- The in-memory `_vector_cache` dict `{ids, vectors, data}`. -/
structure VectorCache where
  ids : List String
  vectors : List (List ℚ)
  data : List DataEntry

/-- State of a `LocalDB` instance: the persisted rows plus the in-memory
vector cache (`None` until the first load). -/
structure DBState where
  rows : List PatternRow
  cache : Option VectorCache

/-! `json.loads` applied to the `protocol_category` text (the `preconditions`
slot of the cache dict reads `row[8]`, which holds that text).  Python accepts
any JSON document there; we model the case relevant to the stored data — a
JSON array of plain strings (no escape sequences) — and report failure
(`none`, the raised `json.JSONDecodeError`) on anything else.  Typical
category labels such as `general` or `lending` are not valid JSON, so the
load of such a row fails; no theorem below depends on the accepted set beyond
arrays of plain strings. -/

/-- Drop leading spaces. -/
def skipWs : List Char → List Char
  | [] => []
  | c :: cs => if c == ' ' then skipWs cs else c :: cs

/-- Parse the remainder of a JSON string literal (opening quote consumed). -/
def parseStrBody : List Char → Option (List Char × List Char)
  | [] => none
  | c :: cs =>
    if c == '"' then some ([], cs)
    else match parseStrBody cs with
      | some (s, r) => some (c :: s, r)
      | none => none

/-- Parse a comma-separated tail of JSON string items up to `]`. -/
def parseItems : ℕ → List Char → Option (List String × List Char)
  | 0, _ => none
  | fuel + 1, cs =>
    match skipWs cs with
    | '"' :: r =>
      match parseStrBody r with
      | some (s, r2) =>
        match skipWs r2 with
        | ',' :: r3 =>
          match parseItems fuel r3 with
          | some (ss, r4) => some (⟨s⟩ :: ss, r4)
          | none => none
        | ']' :: r3 => some ([⟨s⟩], r3)
        | _ => none
      | none => none
    | _ => none

/-- Models `json.loads` restricted to JSON arrays of plain strings. -/
def json_loads_str_list (s : String) : Option (List String) :=
  match skipWs s.data with
  | '[' :: r =>
    (match skipWs r with
     | ']' :: r2 => if skipWs r2 = [] then some [] else none
     | r2 =>
       match parseItems (s.length + 1) r2 with
       | some (ss, r3) => if skipWs r3 = [] then some ss else none
       | none => none)
  | _ => none

/-- The dict literal appended to `_vector_cache["data"]` for one row (see
`DataEntry` for the column shift). `indicators` is `json.loads(row[3])`,
which round-trips the stored `code_indicators`; `pre` is the already-parsed
value of `json.loads(row[8])`. -/
def mk_data_entry (row : PatternRow) (pre : List String) : DataEntry :=
  { id := row.id
    invariant := row.invariant
    break_condition := row.break_condition
    indicators := row.code_indicators
    severity := row.embedding
    finders_count := row.severity
    quality_score := row.finders_count
    protocol_category := row.quality_score
    preconditions := pre }

/-- `LocalDB.load_all_vectors`, cache-miss path: one pass over the rows.  For
each row with a non-empty embedding the source appends to `ids` and `vectors`
first and only then builds the data dict; if `json.loads(row[8])` raises
(row[8] is the `protocol_category` text), the `except` clause skips the
`data` append but the `ids`/`vectors` appends have already happened, so the
three lists go out of step. -/
def load_all_vectors (rows : List PatternRow) : VectorCache :=
  rows.foldl (fun c row =>
    if row.embedding ≠ [] then
      let c1 : VectorCache := ⟨c.ids ++ [row.id], c.vectors ++ [row.embedding], c.data⟩
      match (if row.protocol_category = "" then some []
             else json_loads_str_list row.protocol_category) with
      | some pre => ⟨c1.ids, c1.vectors, c1.data ++ [mk_data_entry row pre]⟩
      | none => c1
    else c) ⟨[], [], []⟩

/-- `load_all_vectors` including the `self._vector_cache` memoization: a
populated cache is returned as-is, otherwise it is built from the rows and
stored. -/
def load_all_vectors_st (s : DBState) : VectorCache × DBState :=
  match s.cache with
  | some c => (c, s)
  | none => (load_all_vectors s.rows, ⟨s.rows, some (load_all_vectors s.rows)⟩)

/-- Python `severity_text <= n` where the left operand is a `str` and the
right an `int`: always a `TypeError`. -/
def pyLeStrInt (_ : String) (_ : ℤ) : Except String Bool :=
  .error "TypeError: '<=' not supported between instances of 'str' and 'int'"

/-- Python `x.lower()` where `x` is a float (the `protocol_category` slot of
the cache dict holds the numeric `quality_score` column): `AttributeError`. -/
def pyLowerRat (_ : ℚ) : Except String String :=
  .error "AttributeError: 'float' object has no attribute 'lower'"

/-- `LocalDB._calculate_rank_boost`.  `data.get("finders_count", 1)` yields
the severity TEXT (see `DataEntry`), so the first `<=` comparison raises;
the remaining steps are the faithful translation of the source. -/
def calculate_rank_boost (data : DataEntry) (similarity : ℚ)
    (protocol_hint : Option String) : Except String ℚ := do
  let boost := similarity
  let le2 ← pyLeStrInt data.finders_count 2
  let boost ← if le2 then pure (boost + 15 / 100)
    else do
      let le5 ← pyLeStrInt data.finders_count 5
      pure (if le5 then boost + 8 / 100 else boost)
  let boost := boost + ((data.quality_score : ℚ) / 5) * (1 / 10)
  match protocol_hint with
  | some ph =>
    if ph ≠ "" then do
      let cat ← pyLowerRat data.protocol_category
      pure (if pyInStr (pyLower ph) cat then boost + 12 / 100 else boost)
    else pure boost
  | none => pure boost

/-- One returned match: the merged dict `{**data, "similarity": …,
"rank_boost": …}`. -/
structure SearchResult where
  entry : DataEntry
  similarity : ℚ
  rank_boost : ℚ

/-- Strict comparison on the sort key `(rank_boost, similarity)`. -/
def result_key_lt (a b : SearchResult) : Bool :=
  decide (a.rank_boost < b.rank_boost) ||
    (decide (a.rank_boost = b.rank_boost) && decide (a.similarity < b.similarity))

/-- `Config.SIMILARITY_THRESHOLD`. -/
def SIMILARITY_THRESHOLD : ℚ := 30 / 100

/-- The result-collection loop of `search_similar` over the candidate
indices: skip scores below `min_score`, apply the vuln-class filter (the
cached dict has no `vuln_class` key, so `data.get("vuln_class", "")` is the
default `""`), then append the match with its rank boost.  List indexing
`cache["data"][idx]` raises `IndexError` when the data list is shorter than
the vectors list (see `load_all_vectors`). -/
def search_collect (cache : VectorCache) (sims : List ℚ) (min_score : ℚ)
    (vuln_class protocol_hint : Option String) : List ℕ → Except String (List SearchResult)
  | [] => .ok []
  | idx :: rest =>
    let score := sims.getD idx 0
    if score < min_score then
      search_collect cache sims min_score vuln_class protocol_hint rest
    else
      match cache.data.get? idx with
      | none => .error "IndexError: list index out of range"
      | some data =>
        if (match vuln_class with
            | some vc => (vc != "") && !(pyInStr (pyLower vc) (pyLower ""))
            | none => false) then
          search_collect cache sims min_score vuln_class protocol_hint rest
        else do
          let boost ← calculate_rank_boost data score protocol_hint
          let tail ← search_collect cache sims min_score vuln_class protocol_hint rest
          pure ({ entry := data, similarity := score, rank_boost := boost } :: tail)

/-- `LocalDB.search_similar` given the loaded cache: empty-cache early
return, cosine similarities (zero-norm stored vectors get similarity 0),
top `2*top_k` candidate indices (the Python slice `[-top_k*2:][::-1]`),
collection, then the stable descending sort on `(rank_boost, similarity)`
and the final `[:top_k]` cut. -/
def search_core (enc : String → List ℚ) (query : String) (top_k : ℕ)
    (min_score : ℚ) (vuln_class protocol_hint : Option String)
    (cache : VectorCache) : Except String (List SearchResult) :=
  if cache.vectors.length = 0 then .ok []
  else
    let q_vec := enc query
    let q_norm := ratSqrt (dotQ q_vec q_vec)
    let sims := cache.vectors.map (fun v =>
      let vn := ratSqrt (dotQ v v)
      if 0 < vn then dotQ v q_vec / (vn * q_norm) else 0)
    let indices := (pySliceLast (top_k * 2) (argsortAsc sims)).reverse
    match search_collect cache sims min_score vuln_class protocol_hint indices with
    | .error e => .error e
    | .ok results => .ok ((stableSort result_key_lt results).take top_k)

/-- `LocalDB.search_similar`: resolves the default `min_score`, loads (or
reuses) the vector cache, and runs `search_core`.  The encoder is passed as
a parameter (`SentenceTransformer` is an external collaborator). -/
def search_similar (enc : String → List ℚ) (query : String) (top_k : ℕ)
    (min_score : Option ℚ) (vuln_class protocol_hint : Option String)
    (s : DBState) : Except String (List SearchResult) × DBState :=
  let ms := min_score.getD SIMILARITY_THRESHOLD
  let p := load_all_vectors_st s
  (search_core enc query top_k ms vuln_class protocol_hint p.1, p.2)

/-- The extracted-pattern dict passed to `add_pattern` (defaults are the
`pattern.get(…)` fallbacks used in the source). -/
structure PatternDict where
  vuln_class : String := "Unknown"
  assumed_invariant : String := ""
  break_condition : String := ""
  preconditions : List String := []
  code_indicators : List String := []

/-- The text `f"{assumed_invariant} {break_condition}"` used both for the
duplicate check and for the embedding encoded in `add_pattern`. -/
def dedup_text (p : PatternDict) : String :=
  p.assumed_invariant ++ " " ++ p.break_condition

/-- `LocalDB._is_duplicate`: a similarity search at threshold 0.92 whose
failures are swallowed by the bare `except: return False`. -/
def is_duplicate (enc : String → List ℚ) (p : PatternDict) (s : DBState) :
    Bool × DBState :=
  match search_similar enc (dedup_text p) 1 (some (92 / 100)) none none s with
  | (.ok l, s') => (!l.isEmpty, s')
  | (.error _, s') => (false, s')

/-- `LocalDB.add_pattern`: duplicate check, then encode
`f"{assumed_invariant} {break_condition}"` and execute
`INSERT OR REPLACE INTO patterns VALUES (?, …)` with the 13 values below.
The `patterns` table created by `_init_db` has 14 columns — `created_at
TIMESTAMP DEFAULT CURRENT_TIMESTAMP` is the 14th — and the statement names
no column list, so sqlite3 raises `OperationalError` ("table patterns has
14 columns but 13 values were supplied") on every call; the `except`
prints the error and returns `False`.  No row is ever written: the only
state surviving the call is the in-memory vector cache that the duplicate
check may have populated. -/
def add_pattern (enc : String → List ℚ) (finding_id : String) (p : PatternDict)
    (severity : String) (quality_score : ℚ) (finders_count : ℤ)
    (title source_link protocol_cat : String) (s : DBState) : Bool × DBState :=
  let d := is_duplicate enc p s
  if d.1 then (false, d.2)
  else
    let _row : PatternRow :=
      { id := finding_id
        vuln_class := p.vuln_class
        invariant := p.assumed_invariant
        break_condition := p.break_condition
        preconditions := p.preconditions
        code_indicators := p.code_indicators
        embedding := enc (dedup_text p)
        severity := severity
        quality_score := quality_score
        finders_count := finders_count
        raw_title := title
        source_link := source_link
        protocol_category := protocol_cat }
    (false, d.2)

/-- `LocalDB.get_stats` returns the Python tuple
`(total, avg_finders, avg_quality, classes)`.  Tuples are runtime-length
values in Python, so the four components are modelled as a heterogeneous
list (see `pyUnpack3`). -/
inductive StatV : Type
  | int (n : ℤ)
  | avg (q : Option ℚ)
  | classes (l : List (String × ℕ))
deriving DecidableEq

/-- SQL `AVG` over a column: `NULL` (`none`) on an empty table. -/
def sqlAvg (l : List ℚ) : Option ℚ :=
  if l = [] then none else some (l.sum / l.length)

/-- SQL `GROUP BY vuln_class ORDER BY COUNT(*) DESC` (tie order is
unspecified in SQLite; this deterministic model keeps first-appearance
order among equal counts, which no theorem depends on). -/
def class_counts (rows : List PatternRow) : List (String × ℕ) :=
  stableSort (fun a b => decide (a.2 < b.2))
    (((rows.map (fun r => r.vuln_class)).dedup).map
      (fun c => (c, rows.countP (fun r => r.vuln_class == c))))

/-- `LocalDB.get_stats`: `SELECT COUNT(*), AVG(finders_count),
AVG(quality_score)` plus the per-class breakdown, returned as a 4-tuple. -/
def get_stats (rows : List PatternRow) : List StatV :=
  [ .int rows.length
  , .avg (sqlAvg (rows.map (fun r => (r.finders_count : ℚ))))
  , .avg (sqlAvg (rows.map (fun r => r.quality_score)))
  , .classes (class_counts rows) ]

/-- Python unpacking `a, b, c = t`: succeeds only when the tuple has exactly
three components. -/
def pyUnpack3 (l : List StatV) : Except String (StatV × StatV × StatV) :=
  match l with
  | [a, b, c] => .ok (a, b, c)
  | l => if l.length > 3
      then .error "ValueError: too many values to unpack (expected 3)"
      else .error "ValueError: not enough values to unpack (expected 3)"

/-! ## PatternMatcher (pattern_matcher.py) -/

/-- The static-analysis finding dict as consumed by `composite_score`
(only its `type` key is read there). -/
structure StaticBug where
  type : String

/-- The pattern dict as consumed by `composite_score`: the `.get` keys with
their defaults (`finders_count` 1, `quality_score` 3, `vuln_class` `""`).
`none` models an absent key. -/
structure MatchPat where
  finders_count : Option ℤ := none
  quality_score : Option ℚ := none
  vuln_class : Option String := none

/-- `PatternMatcher.composite_score`: similarity, rarity, quality and
static-overlap components summed into a 0–100 score, then mapped to a
confidence label. -/
def composite_score (similarity : ℚ) (pattern : MatchPat)
    (static_bug : Option StaticBug) : String × ℚ :=
  let score : ℚ := 0
  let score := score + similarity * 35
  let finders := pattern.finders_count.getD 1
  let score := score + max 0 (25 - (finders : ℚ) * 3)
  let quality := pattern.quality_score.getD 3
  let score := score + (quality / 5) * 20
  let score :=
    match static_bug with
    | some sb =>
      if pyInStr (pyLower sb.type) (pyLower (pattern.vuln_class.getD "")) then
        score + 20
      else score
    | none => score
  if score ≥ 75 then ("High", score)
  else if score ≥ 55 then ("Medium", score)
  else ("Low", score)

/-- `PatternMatcher.analyze_target`.  After indexing the patterns the method
executes `total, avg_finders, classes = self.db.get_stats()`, which unpacks
the four-element result of `get_stats` into three names and raises
`ValueError` before any finding is collected; everything past that line is
unreachable and therefore not modelled.  `target_files` and
`static_analyzer` are never inspected before the failure, so their types are
parameters. -/
def analyze_target {α β : Type} (_target_files : List α)
    (_static_analyzer : Option β) (s : DBState) :
    Except String (List StatV) × DBState :=
  let p := load_all_vectors_st s
  match pyUnpack3 (get_stats p.2.rows) with
  | .error e => (.error e, p.2)
  | .ok _ => (.ok [], p.2)

/-! ## CallGraphAnalyzer (call_graph.py) -/

/-- Analyzer state: `call_graph`, `external_calls`, `state_reads`,
`state_writes`, each a dict from function name to a list of strings,
modelled as association lists in insertion order. -/
structure CGState where
  call_graph : List (String × List String) := []
  external_calls : List (String × List String) := []
  state_reads : List (String × List String) := []
  state_writes : List (String × List String) := []

/-- The freshly constructed analyzer: all four dicts empty. -/
def cgInit : CGState := {}

/-- Per-function data extracted from one Slither function object (the
`str(…)` renderings of calls and state variables). -/
structure FuncData where
  name : String
  internal_calls : List String := []
  external_calls : List String := []
  state_reads : List String := []
  state_writes : List String := []

/-- Python dict assignment `d[k] = v`: overwrite in place, else append. -/
def dictSet {α : Type} (m : List (String × α)) (k : String) (v : α) :
    List (String × α) :=
  if (m.lookup k).isSome then
    m.map (fun kv => if kv.1 = k then (k, v) else kv)
  else m ++ [(k, v)]

/-- `CallGraphAnalyzer.build_graph`.  `none` models the failure paths — the
`slither` import being unavailable or `Slither(self.path)` raising, i.e. an
unparsable project — both of which return `False` before touching the
state.  `some contracts` models a successful parse: every function of every
contract has its four lists assigned. -/
def build_graph (proj : Option (List (List FuncData))) (st : CGState) :
    Bool × CGState :=
  match proj with
  | none => (false, st)
  | some contracts =>
    (true, contracts.foldl (fun s fns =>
      fns.foldl (fun s f =>
        { call_graph := dictSet s.call_graph f.name f.internal_calls
          external_calls := dictSet s.external_calls f.name f.external_calls
          state_reads := dictSet s.state_reads f.name f.state_reads
          state_writes := dictSet s.state_writes f.name f.state_writes }) s) st)

/-- One finding emitted by `find_cross_function_reentrancy`. -/
structure CGFinding where
  type : String
  severity : String
  entry_point : String
  external_call_function : String
  shared_state : List String
  description : String
  attack_path : String

/-- `CallGraphAnalyzer.find_cross_function_reentrancy`: for every function
`func_a` of the call graph and every `called_func` in its call list that is
a key of `external_calls`, emit a finding when the state read by `func_a`
intersects the state written by `called_func` and the latter has at least
one external call.  `set(...).intersection(...)` is modelled as a
deduplicated filter (the hash iteration order of the Python set is not
modelled; no theorem depends on the order of `shared_state`). -/
def find_cross_function_reentrancy (st : CGState) : List CGFinding :=
  st.call_graph.flatMap (fun ac =>
    ac.2.filterMap (fun b =>
      match st.external_calls.lookup b with
      | none => none
      | some b_externals =>
        let a_reads := (st.state_reads.lookup ac.1).getD []
        let b_writes := (st.state_writes.lookup b).getD []
        let shared_state := (a_reads.filter (fun v => b_writes.contains v)).dedup
        if shared_state ≠ [] ∧ b_externals ≠ [] then
          some { type := "cross_function_reentrancy"
                 severity := "critical"
                 entry_point := ac.1
                 external_call_function := b
                 shared_state := shared_state
                 description := ac.1 ++ " reads state that " ++ b ++ " modifies after external call"
                 attack_path := ac.1 ++ " → " ++ b ++ " → external_call → state_change" }
        else none))

/-- One finding emitted by `find_delegatecall_injection`. -/
structure DelegateFinding where
  type : String
  severity : String
  function : String
  description : String

/-- `CallGraphAnalyzer.find_delegatecall_injection`: probes the `str(...)`
rendering of each call list for `delegatecall` and of the function's
external calls for `msg.data`. -/
def find_delegatecall_injection (st : CGState) : List DelegateFinding :=
  st.call_graph.filterMap (fun fc =>
    if pyInStr "delegatecall" (pyLower (pyReprStrList fc.2)) then
      if pyInStr "msg.data" (pyReprStrList ((st.external_calls.lookup fc.1).getD [])) then
        some { type := "delegatecall_injection"
               severity := "critical"
               function := fc.1
               description := "Delegatecall to controllable address via msg.data" }
      else none
    else none)

/-- One finding emitted by `find_flash_loan_entry_points`. -/
structure FlashFinding where
  type : String
  severity : String
  function : String
  called_by : List String
  description : String

/-- `CallGraphAnalyzer.find_flash_loan_entry_points`: functions with at
least one external call that are called from at least one other function. -/
def find_flash_loan_entry_points (st : CGState) : List FlashFinding :=
  st.external_calls.filterMap (fun fe =>
    if fe.2.isEmpty then none
    else
      let callers := (st.call_graph.filter (fun gc => gc.2.contains fe.1)).map (fun gc => gc.1)
      if callers ≠ [] then
        some { type := "flash_loan_callback_vector"
               severity := "high"
               function := fe.1
               called_by := callers
               description := "External call function reachable from multiple paths (flash loan risk)" }
      else none)

/-! ## CacheManager (cache_manager.py)

Per-artifact cache files, modelled as association lists keyed by the file
name stem (the prompt hash for the LLM cache, the content hash for the
Slither cache).  Timestamps are seconds (`datetime` differences compare as
second counts; `timedelta(hours=h)` is `h * 3600` seconds). -/

/-- An LLM cache file on disk: either a well-formed JSON document
`{timestamp, ttl_hours, response}` or one that fails to read/deserialize. -/
inductive LLMFile : Type
  | valid (timestamp : ℤ) (ttl_hours : ℤ) (response : String)
  | corrupt
deriving DecidableEq

/-- A Slither cache file: `{timestamp, file_mtime, result}` or corrupt. -/
inductive SlitherFile : Type
  | valid (timestamp : ℤ) (file_mtime : ℚ) (result : String)
  | corrupt
deriving DecidableEq

/-- `CacheManager` state: the two cache directories plus the hit/miss
counters of `self._stats`. -/
structure CMState where
  llm_files : List (String × LLMFile) := []
  slither_files : List (String × SlitherFile) := []
  hits : ℕ := 0
  misses : ℕ := 0

/-- Write (create or overwrite) a file in a directory listing. -/
def fsWrite {α : Type} (m : List (String × α)) (k : String) (v : α) :
    List (String × α) :=
  if (m.lookup k).isSome then
    m.map (fun kv => if kv.1 = k then (k, v) else kv)
  else m ++ [(k, v)]

/-- `Path.unlink`: remove a file from a directory listing. -/
def fsErase {α : Type} (m : List (String × α)) (k : String) :
    List (String × α) :=
  m.filter (fun kv => kv.1 ≠ k)

/-- `CacheManager.save_llm_response` at wall-clock time `now`: writes
`{timestamp: now, ttl_hours, response}` under `{prompt_hash}.json`.  The
`except` branch (I/O failure) is unreachable in this total model. -/
def save_llm_response (now : ℤ) (prompt_hash : String) (response : String)
    (ttl_hours : ℤ) (s : CMState) : Bool × CMState :=
  (true, { s with llm_files := fsWrite s.llm_files prompt_hash (.valid now ttl_hours response) })

/-- `CacheManager.load_llm_response` at wall-clock time `now`: missing file
is a miss; an unreadable file raises inside the `try` and is a miss; an
entry older than its stored TTL is a miss and the file is unlinked;
otherwise the response is returned. -/
def load_llm_response (now : ℤ) (prompt_hash : String) (s : CMState) :
    Option String × CMState :=
  match s.llm_files.lookup prompt_hash with
  | none => (none, { s with misses := s.misses + 1 })
  | some .corrupt => (none, { s with misses := s.misses + 1 })
  | some (.valid ts ttl resp) =>
    if now - ts > ttl * 3600 then
      (none, { s with llm_files := fsErase s.llm_files prompt_hash
                      misses := s.misses + 1 })
    else (some resp, { s with hits := s.hits + 1 })

/-- `CacheManager.load_slither_result` at wall-clock time `now`, for the
cache key computed from the contract path and the contract file's current
mtime: missing or unreadable file is a miss; an entry older than
`max_age_hours` is a miss (the file is not removed); a changed mtime is a
miss; otherwise the cached result is returned. -/
def load_slither_result (now : ℤ) (cache_key : String) (mtime_now : ℚ)
    (max_age_hours : ℤ) (s : CMState) : Option String × CMState :=
  match s.slither_files.lookup cache_key with
  | none => (none, { s with misses := s.misses + 1 })
  | some .corrupt => (none, { s with misses := s.misses + 1 })
  | some (.valid ts mt res) =>
    if now - ts > max_age_hours * 3600 then
      (none, { s with misses := s.misses + 1 })
    else if mtime_now ≠ mt then
      (none, { s with misses := s.misses + 1 })
    else (some res, { s with hits := s.hits + 1 })

/-! ## Concrete instances used by witnesses and counterexamples -/

/-- The condition under which `find_cross_function_reentrancy` emits a
finding for the pair `(A, B)`: `B` is a key of `external_calls`, the state
read by `A` intersects the state written by `B`, and `B` has at least one
external call (mirrors the guard in the source). -/
def cross_condition (st : CGState) (A B : String) : Bool :=
  match st.external_calls.lookup B with
  | none => false
  | some b_externals =>
    decide ((((st.state_reads.lookup A).getD []).filter
        (fun v => ((st.state_writes.lookup B).getD []).contains v)).dedup ≠ []
      ∧ b_externals ≠ [])

/-- A built graph in which `withdraw` calls `_transfer` twice (a function
body may contain the same internal call more than once, and
`function.internal_calls` lists every occurrence). -/
def cgDup : CGState :=
  { call_graph := [("withdraw", ["_transfer", "_transfer"])]
    external_calls := [("_transfer", ["ext.call()"])]
    state_reads := [("withdraw", ["balance"])]
    state_writes := [("_transfer", ["balance"])] }

/-- The synthetic case of the spec: external function `A` reads `balance`
and calls `B`; `B` writes `balance` and performs an external call. -/
def cgSynth : CGState :=
  { call_graph := [("A", ["B"])]
    external_calls := [("A", []), ("B", ["ext.call()"])]
    state_reads := [("A", ["balance"])]
    state_writes := [("B", ["balance"])] }

/-- A deterministic stand-in for the sentence-transformer encoder: every
text is embedded as the unit vector `[1]` (identical texts get identical
embeddings, which is all the theorems rely on). -/
def encConst : String → List ℚ := fun _ => [1]

/-- A pattern extraction as produced by the LLM collaborator. -/
def pEx : PatternDict :=
  { vuln_class := "Reentrancy"
    assumed_invariant := "balance debited before external transfer"
    break_condition := "external call executed before balance zeroed" }

/-- A stored row as `add_pattern` creates it from a Solodit finding with
severity `"Medium"`, one finder, quality score 5 and no protocol category. -/
def rowC2 : PatternRow :=
  { id := "s1", vuln_class := "Reentrancy", invariant := "inv"
    break_condition := "brk", embedding := [1], severity := "Medium"
    quality_score := 5, finders_count := 1 }

/-- The cache data entry `load_all_vectors` builds from `rowC2`: every
shifted slot holds the neighbouring column's value. -/
def entryC2 : DataEntry :=
  { id := "s1", invariant := "inv", break_condition := "brk"
    indicators := [], severity := [1], finders_count := "Medium"
    quality_score := 1, protocol_category := 5, preconditions := [] }

/-- A stored row whose `vuln_class` is literally `reentrancy`. -/
def rowC8 : PatternRow :=
  { id := "s2", vuln_class := "reentrancy", invariant := "reads before call"
    break_condition := "call before write", embedding := [1], severity := "High" }

/-- A stored row used for the search counterexample. -/
def rowC4 : PatternRow :=
  { id := "s3", vuln_class := "Oracle", invariant := "fresh price"
    break_condition := "stale round used", embedding := [1], severity := "High" }

/-- A cache-manager state with one fresh LLM entry (written at time 0 with
`ttl_hours=1`), one unreadable LLM file and one unreadable Slither file. -/
def cmEx : CMState :=
  { llm_files := [("h1", .valid 0 1 "resp"), ("h2", .corrupt)]
    slither_files := [("k1", SlitherFile.corrupt)] }

/-! ## Helper lemmas -/

theorem lookup_fsWrite_self {α : Type} (m : List (String × α)) (k : String) (v : α) :
    (fsWrite m k v).lookup k = some v := by
  unfold fsWrite
  split
  · rename_i hs
    induction m with
    | nil => simp at hs
    | cons a t ih =>
      obtain ⟨a1, a2⟩ := a
      by_cases hk : a1 = k
      · subst hk
        simp only [List.map_cons, if_true, eq_self_iff_true]
        simp [List.lookup]
      · have hb : (k == a1) = false := by
          rw [beq_eq_false_iff_ne]
          exact Ne.symm hk
        simp only [List.lookup, hb] at hs
        simp only [List.map_cons]
        have hif : (if (a1, a2).1 = k then (k, v) else (a1, a2)) = (a1, a2) := if_neg hk
        rw [hif]
        simp only [List.lookup, hb]
        exact ih hs
  · rename_i hs
    induction m with
    | nil => simp [List.lookup]
    | cons a t ih =>
      obtain ⟨a1, a2⟩ := a
      by_cases hk : a1 = k
      · subst hk
        simp [List.lookup] at hs
      · have hb : (k == a1) = false := by
          rw [beq_eq_false_iff_ne]
          exact Ne.symm hk
        simp only [List.lookup, hb] at hs
        simp only [List.cons_append, List.lookup, hb]
        exact ih hs

theorem lookup_fsErase_self {α : Type} (m : List (String × α)) (k : String) :
    (fsErase m k).lookup k = none := by
  unfold fsErase
  induction m with
  | nil => simp [List.lookup]
  | cons a t ih =>
    obtain ⟨a1, a2⟩ := a
    by_cases hk : a1 = k
    · subst hk
      have hd : decide ((a1, a2).1 ≠ a1) = false := by simp
      simp only [List.filter_cons, hd, if_neg]
      simpa using ih
    · have hb : (k == a1) = false := by
        rw [beq_eq_false_iff_ne]
        exact Ne.symm hk
      have hd : decide ((a1, a2).1 ≠ k) = true := by simpa using hk
      simp only [List.filter, hd, List.lookup, hb]
      exact ih

theorem load_st_of_cache {s : DBState} {c : VectorCache} (h : s.cache = some c) :
    load_all_vectors_st s = (c, s) := by
  unfold load_all_vectors_st
  rw [h]

theorem load_st_cache_eq (s : DBState) :
    (load_all_vectors_st s).2.cache = some (load_all_vectors_st s).1 := by
  unfold load_all_vectors_st
  cases hc : s.cache with
  | some c => simpa using hc
  | none => rfl

theorem load_st_rows_eq (s : DBState) :
    (load_all_vectors_st s).2.rows = s.rows := by
  unfold load_all_vectors_st
  cases hc : s.cache <;> rfl

theorem calc_rank_boost_error (d : DataEntry) (sim : ℚ) (ph : Option String) :
    calculate_rank_boost d sim ph =
      .error "TypeError: '<=' not supported between instances of 'str' and 'int'" := rfl

theorem search_collect_ok_nil {cache : VectorCache} {sims : List ℚ} {ms : ℚ}
    {vc ph : Option String} {idxs : List ℕ} {l : List SearchResult}
    (h : search_collect cache sims ms vc ph idxs = .ok l) : l = [] := by
  induction idxs with
  | nil =>
    simp only [search_collect, Except.ok.injEq] at h
    exact h.symm
  | cons i rest ih =>
    simp only [search_collect] at h
    split at h
    · exact ih h
    · split at h
      · exact Except.noConfusion h
      · split at h
        · exact ih h
        · rw [calc_rank_boost_error] at h
          exact Except.noConfusion h

/-! ## Claim theorems -/

/-- C5: the aggregator is claimed to deduplicate findings sharing a
`(location, type)` key across sources, boost the kept score by a
corroboration multiplier capped at 100, and union the source tags.  No such
step exists in `analyze_target`; moreover `analyze_target` raises
`ValueError` on every input while unpacking the four-element result of
`get_stats` into three names, so no aggregated output is ever produced. -/
theorem C5_analyze_target_raises {α β : Type} (tf : List α) (sa : Option β) (s : DBState) :
    (analyze_target tf sa s).1 = Except.error "ValueError: too many values to unpack (expected 3)" := rfl

/-- C6: the composite score of a semantic match is
`similarity*35 + rarity(finders_count) + quality(quality_score) + overlap`,
where the 20-point overlap bonus applies exactly when a rule-engine finding
is present whose type is a (case-insensitive) substring of the pattern's
vulnerability class, and the confidence label is determined by the fixed
ranges `≥75 → High`, `≥55 → Medium`, else `Low` — in particular it always
lies in {Critical, High, Medium, Low} (the `Critical` label is never
produced by this function). -/
theorem C6_composite_score (similarity : ℚ) (fc : Option ℤ) (qs : Option ℚ)
    (vc : Option String) (sb : Option StaticBug) :
    (composite_score similarity ⟨fc, qs, vc⟩ sb
      = (let S : ℚ := similarity * 35 + max 0 (25 - (fc.getD 1 : ℚ) * 3)
            + ((qs.getD 3) / 5) * 20
            + (match sb with
               | some b => if pyInStr (pyLower b.type) (pyLower (vc.getD "")) then (20 : ℚ) else 0
               | none => 0);
         if S ≥ 75 then ("High", S) else if S ≥ 55 then ("Medium", S) else ("Low", S)))
    ∧ (composite_score similarity ⟨fc, qs, vc⟩ sb).1 ∈ ["Critical", "High", "Medium", "Low"] := by
  constructor
  · cases sb with
    | none =>
      simp only [composite_score, zero_add, add_zero]
    | some b =>
      by_cases hp : pyInStr (pyLower b.type) (pyLower (vc.getD "")) = true
      · simp only [composite_score, hp, if_true, zero_add]
      · simp only [composite_score, hp, if_false, Bool.false_eq_true, add_zero, zero_add]
  · cases sb with
    | none =>
      simp only [composite_score]
      split_ifs <;> simp
    | some b =>
      simp only [composite_score]
      split_ifs <;> simp

/-- C7: when the project cannot be parsed or the underlying analyzer is
unavailable, `build_graph` returns `false` and leaves the fresh analyzer
state untouched, after which each of the three detectors returns the empty
list rather than raising. -/
theorem C7_failed_build_empty_detectors :
    build_graph none cgInit = (false, cgInit)
    ∧ find_cross_function_reentrancy cgInit = []
    ∧ find_delegatecall_injection cgInit = []
    ∧ find_flash_loan_entry_points cgInit = [] :=
  ⟨rfl, rfl, rfl, rfl⟩

/-- C9: a per-artifact cache lookup is a miss (no result, no exception)
when the entry's age exceeds its stored TTL or the entry is unreadable; an
LLM entry written with `ttl_hours = 1` and queried 7200 seconds (two hours)
later is a miss and its stale file is unlinked.  Expired Slither entries
and unreadable files of either cache are likewise misses. -/
theorem C9_cache_ttl_miss :
    (∀ (now : ℤ) (hash : String) (s : CMState) (ts ttl : ℤ) (resp : String),
        s.llm_files.lookup hash = some (.valid ts ttl resp) →
        now - ts > ttl * 3600 →
        (load_llm_response now hash s).1 = none
        ∧ ((load_llm_response now hash s).2).llm_files.lookup hash = none)
    ∧ (∀ (now : ℤ) (hash : String) (s : CMState),
        s.llm_files.lookup hash = some .corrupt →
        (load_llm_response now hash s).1 = none)
    ∧ (∀ (now : ℤ) (hash resp : String) (s : CMState),
        (load_llm_response (now + 7200) hash ((save_llm_response now hash resp 1 s).2)).1 = none
        ∧ ((load_llm_response (now + 7200) hash ((save_llm_response now hash resp 1 s).2)).2).llm_files.lookup hash = none)
    ∧ (∀ (now : ℤ) (key : String) (mt : ℚ) (age : ℤ) (s : CMState) (ts : ℤ) (fmt : ℚ) (res : String),
        s.slither_files.lookup key = some (.valid ts fmt res) →
        now - ts > age * 3600 →
        (load_slither_result now key mt age s).1 = none)
    ∧ (∀ (now : ℤ) (key : String) (mt : ℚ) (age : ℤ) (s : CMState),
        s.slither_files.lookup key = some .corrupt →
        (load_slither_result now key mt age s).1 = none) := by
  refine ⟨?_, ?_, ?_, ?_, ?_⟩
  · intro now hash s ts ttl resp h hexp
    simp [load_llm_response, h, hexp, lookup_fsErase_self]
  · intro now hash s h
    simp [load_llm_response, h]
  · intro now hash resp s
    have hexp : now + 7200 - now > 1 * 3600 := by omega
    simp [load_llm_response, save_llm_response, lookup_fsWrite_self, hexp,
      lookup_fsErase_self]
  · intro now key mt age s ts fmt res h hexp
    simp [load_slither_result, h, hexp]
  · intro now key mt age s h
    simp [load_slither_result, h]

/-- C9 witness: the concrete cache state `cmEx` holds an LLM entry written
at time 0 with `ttl_hours = 1`; querying it at time 7201 is a miss and
removes the file; its unreadable LLM and Slither files are also misses. -/
theorem C9_witness :
    ((load_llm_response 7201 "h1" cmEx).1 = none
      ∧ ((load_llm_response 7201 "h1" cmEx).2).llm_files.lookup "h1" = none)
    ∧ (load_llm_response 10 "h2" cmEx).1 = none
    ∧ (load_slither_result 100000 "k1" 0 24 cmEx).1 = none := by
  refine ⟨C9_cache_ttl_miss.1 7201 "h1" cmEx 0 1 "resp" rfl (by decide), ?_, ?_⟩
  · exact C9_cache_ttl_miss.2.1 10 "h2" cmEx rfl
  · exact C9_cache_ttl_miss.2.2.2.2 100000 "k1" 0 24 cmEx rfl

theorem lookup_none_of_not_key {α : Type} (t : List (String × α)) (k : String)
    (h : k ∉ t.map Prod.fst) : t.lookup k = none := by
  induction t with
  | nil => rfl
  | cons a t ih =>
    obtain ⟨a1, a2⟩ := a
    simp only [List.map_cons, List.mem_cons] at h
    push_neg at h
    have hb : (k == a1) = false := by
      rw [beq_eq_false_iff_ne]
      exact h.1
    simp only [List.lookup, hb]
    exact ih h.2

theorem cross_block_countP (ext rd wr : List (String × List String))
    (A : String) (calls : List String) (B : String) :
    ((calls.filterMap (fun b =>
      match ext.lookup b with
      | none => none
      | some b_externals =>
        let a_reads := (rd.lookup A).getD []
        let b_writes := (wr.lookup b).getD []
        let shared_state := (a_reads.filter (fun v => b_writes.contains v)).dedup
        if shared_state ≠ [] ∧ b_externals ≠ [] then
          some { type := "cross_function_reentrancy", severity := "critical",
                 entry_point := A, external_call_function := b,
                 shared_state := shared_state,
                 description := A ++ " reads state that " ++ b ++ " modifies after external call",
                 attack_path := A ++ " → " ++ b ++ " → external_call → state_change" : CGFinding }
        else none)).countP (fun f => f.entry_point == A && f.external_call_function == B))
    = if cross_condition ⟨[], ext, rd, wr⟩ A B then calls.count B else 0 := by
  induction calls with
  | nil => simp
  | cons b rest ih =>
    rw [List.filterMap_cons]
    by_cases hbB : b = B
    · subst hbB
      cases hlk : ext.lookup b with
      | none =>
        have hcond : cross_condition ⟨[], ext, rd, wr⟩ A b = false := by
          unfold cross_condition
          simp [hlk]
        simp only [hlk]
        rw [ih, hcond]
        simp
      | some be =>
        by_cases hc : ((((rd.lookup A).getD []).filter
            (fun v => ((wr.lookup b).getD []).contains v)).dedup ≠ [] ∧ be ≠ [])
        · have hcond : cross_condition ⟨[], ext, rd, wr⟩ A b = true := by
            unfold cross_condition
            simp only [hlk]
            exact decide_eq_true hc
          simp only [hlk, if_pos hc]
          rw [List.countP_cons, ih, hcond]
          simp [List.count_cons]
        · have hcond : cross_condition ⟨[], ext, rd, wr⟩ A b = false := by
            unfold cross_condition
            simp only [hlk]
            exact decide_eq_false hc
          simp only [hlk, if_neg hc]
          rw [ih, hcond]
          simp [hcond]
    · have hcnt : (b :: rest).count B = rest.count B := by
        simp [List.count_cons, hbB]
      cases hlk : ext.lookup b with
      | none =>
        simp only [hlk]
        rw [ih, hcnt]
      | some be =>
        by_cases hc : ((((rd.lookup A).getD []).filter
            (fun v => ((wr.lookup b).getD []).contains v)).dedup ≠ [] ∧ be ≠ [])
        · simp only [hlk, if_pos hc]
          rw [List.countP_cons, ih, hcnt]
          simp [hbB]
        · simp only [hlk, if_neg hc]
          rw [ih, hcnt]

theorem cross_block_countP_ne (ext rd wr : List (String × List String))
    (a1 A : String) (calls : List String) (B : String) (h : a1 ≠ A) :
    ((calls.filterMap (fun b =>
      match ext.lookup b with
      | none => none
      | some b_externals =>
        let a_reads := (rd.lookup a1).getD []
        let b_writes := (wr.lookup b).getD []
        let shared_state := (a_reads.filter (fun v => b_writes.contains v)).dedup
        if shared_state ≠ [] ∧ b_externals ≠ [] then
          some { type := "cross_function_reentrancy", severity := "critical",
                 entry_point := a1, external_call_function := b,
                 shared_state := shared_state,
                 description := a1 ++ " reads state that " ++ b ++ " modifies after external call",
                 attack_path := a1 ++ " → " ++ b ++ " → external_call → state_change" : CGFinding }
        else none)).countP (fun f => f.entry_point == A && f.external_call_function == B))
    = 0 := by
  induction calls with
  | nil => simp
  | cons b rest ih =>
    rw [List.filterMap_cons]
    cases hlk : ext.lookup b with
    | none =>
      simp only [hlk]
      exact ih
    | some be =>
      by_cases hc : ((((rd.lookup a1).getD []).filter
          (fun v => ((wr.lookup b).getD []).contains v)).dedup ≠ [] ∧ be ≠ [])
      · simp only [hlk, if_pos hc]
        rw [List.countP_cons, ih]
        simp [h]
      · simp only [hlk, if_neg hc]
        exact ih

/-- C1 (amended): `find_cross_function_reentrancy` emits one finding per
occurrence of `B` in `A`'s internal-call list whenever `B` is a known
function whose state writes intersect `A`'s state reads and which has at
least one external call (so exactly one finding for the pair when `A` calls
`B` once), and every emitted finding has severity `critical` and attack
path `A → B → external_call → state_change` (the literal tail segment is
`state_change`, not the `state_write` of the claim). -/
theorem C1_cross_function_reentrancy (st : CGState)
    (hnd : (st.call_graph.map Prod.fst).Nodup) (A B : String) :
    ((find_cross_function_reentrancy st).countP
        (fun f => f.entry_point == A && f.external_call_function == B))
      = (if cross_condition st A B then ((st.call_graph.lookup A).getD []).count B else 0)
    ∧ ∀ f ∈ find_cross_function_reentrancy st,
        f.severity = "critical"
        ∧ f.attack_path = f.entry_point ++ " → " ++ f.external_call_function
            ++ " → external_call → state_change" := by
  obtain ⟨g, ext, rd, wr⟩ := st
  constructor
  · simp only [List.map] at hnd
    simp only [find_cross_function_reentrancy]
    induction g with
    | nil => simp [List.lookup]
    | cons a t ih =>
      obtain ⟨a1, a2⟩ := a
      simp only [List.map_cons, List.nodup_cons] at hnd
      rw [List.flatMap_cons, List.countP_append]
      by_cases hA : a1 = A
      · subst hA
        have hlk : ((⟨(a1, a2) :: t, ext, rd, wr⟩ : CGState).call_graph.lookup a1) = some a2 := by
          simp [List.lookup]
        have htnone : t.lookup a1 = none := lookup_none_of_not_key t a1 hnd.1
        have hzero :
            ((t.flatMap (fun ac => ac.2.filterMap (fun b =>
              match ext.lookup b with
              | none => none
              | some b_externals =>
                let a_reads := (rd.lookup ac.1).getD []
                let b_writes := (wr.lookup b).getD []
                let shared_state := (a_reads.filter (fun v => b_writes.contains v)).dedup
                if shared_state ≠ [] ∧ b_externals ≠ [] then
                  some { type := "cross_function_reentrancy", severity := "critical",
                         entry_point := ac.1, external_call_function := b,
                         shared_state := shared_state,
                         description := ac.1 ++ " reads state that " ++ b ++ " modifies after external call",
                         attack_path := ac.1 ++ " → " ++ b ++ " → external_call → state_change" : CGFinding }
                else none))).countP
              (fun f => f.entry_point == a1 && f.external_call_function == B)) = 0 := by
          have := ih hnd.2
          rw [this, htnone]
          simp
        rw [hzero, cross_block_countP ext rd wr a1 a2 B]
        simp only [hlk]
        simp [List.lookup]
        rfl
      · have hlk : List.lookup A ((a1, a2) :: t) = List.lookup A t := by
          have hb : (A == a1) = false := by
            rw [beq_eq_false_iff_ne]
            exact Ne.symm hA
          simp [List.lookup, hb]
        rw [cross_block_countP_ne ext rd wr a1 A a2 B hA, ih hnd.2]
        simp [hlk]
        rfl
  · intro f hf
    simp only [find_cross_function_reentrancy, List.mem_flatMap, List.mem_filterMap] at hf
    obtain ⟨ac, hac, b, hb, hsome⟩ := hf
    revert hsome
    cases hlk : List.lookup b ext with
    | none => simp
    | some be =>
      simp only []
      by_cases hc : (((((rd.lookup ac.1).getD []).filter
          (fun v => ((wr.lookup b).getD []).contains v)).dedup ≠ []) ∧ be ≠ [])
      · rw [if_pos hc]
        intro hsome
        cases hsome
        exact ⟨rfl, rfl⟩
      · rw [if_neg hc]
        simp

/-- C1 counterexample: in the built graph `cgDup`, `withdraw` calls
`_transfer` twice, the read/write sets intersect on `balance` and
`_transfer` has an external call; the detector emits two findings for the
pair (the claim says exactly one), and each attack path ends in the literal
`state_change`, not the `state_write` of the claim. -/
theorem C1_counterexample :
    (find_cross_function_reentrancy cgDup).length = 2
    ∧ ((find_cross_function_reentrancy cgDup).all
        (fun f => f.attack_path == "withdraw → _transfer → external_call → state_change")) = true
    ∧ "withdraw → _transfer → external_call → state_change"
        ≠ "withdraw → _transfer → external_call → state_write" := by
  refine ⟨?_, ?_, ?_⟩ <;> decide

/-- C1 witness: the synthetic single-call case `cgSynth` (external `A`
reads `balance` and calls `B`; `B` writes `balance` after an external
call) produces exactly one finding for the pair `(A, B)`. -/
theorem C1_witness :
    ((find_cross_function_reentrancy cgSynth).countP
        (fun f => f.entry_point == "A" && f.external_call_function == "B")) = 1 := by
  have h := (C1_cross_function_reentrancy cgSynth (by decide) "A" "B").1
  rw [h]
  decide

theorem search_core_ok_nil {enc : String → List ℚ} {q : String} {k : ℕ} {ms : ℚ}
    {vc ph : Option String} {cache : VectorCache} {l : List SearchResult}
    (h : search_core enc q k ms vc ph cache = .ok l) : l = [] := by
  unfold search_core at h
  split at h
  · simpa using h.symm
  · dsimp only at h
    split at h
    · exact Except.noConfusion h
    · rename_i results heq
      have hres := search_collect_ok_nil heq
      subst hres
      simpa [stableSort] using h.symm

theorem is_duplicate_eq (enc : String → List ℚ) (p : PatternDict) (s : DBState) :
    is_duplicate enc p s =
      ((match search_core enc (dedup_text p) 1 (92 / 100) none none (load_all_vectors_st s).1 with
        | .ok l => !l.isEmpty
        | .error _ => false), (load_all_vectors_st s).2) := by
  unfold is_duplicate search_similar
  simp only [Option.getD_some]
  cases h : search_core enc (dedup_text p) 1 (92 / 100) none none (load_all_vectors_st s).1 <;>
    simp [h]

theorem add_pattern_eq (enc : String → List ℚ) (fid : String) (p : PatternDict)
    (sev : String) (q : ℚ) (fc : ℤ) (ti sl pc : String) (s : DBState) :
    add_pattern enc fid p sev q fc ti sl pc s = (false, (load_all_vectors_st s).2) := by
  unfold add_pattern
  rw [is_duplicate_eq]
  cases hc : search_core enc (dedup_text p) 1 (92 / 100) none none (load_all_vectors_st s).1 with
  | ok l => cases l <;> simp
  | error e => simp

theorem add_pattern_cache (enc : String → List ℚ) (fid : String) (p : PatternDict)
    (sev : String) (q : ℚ) (fc : ℤ) (ti sl pc : String) (s : DBState) :
    ((add_pattern enc fid p sev q fc ti sl pc s).2).cache
      = some (load_all_vectors_st s).1 := by
  rw [add_pattern_eq]
  exact load_st_cache_eq s

theorem add_pattern_rows (enc : String → List ℚ) (fid : String) (p : PatternDict)
    (sev : String) (q : ℚ) (fc : ℤ) (ti sl pc : String) (s : DBState) :
    ((add_pattern enc fid p sev q fc ti sl pc s).2).rows = s.rows := by
  rw [add_pattern_eq]
  exact load_st_rows_eq s

/-- C3: the claimed idempotent ingestion never gets to run.  The
`INSERT OR REPLACE` in `add_pattern` supplies 13 values with no column
list to the 14-column `patterns` table (`created_at` is the omitted 14th
column), so sqlite3 raises `OperationalError` on every call, the `except`
swallows it and `add_pattern` returns `False` without writing a row.  The
store size is therefore unchanged after the second identical insert — but
so is it after the first: no insert ever persists anything, and neither
the duplicate-check rejection nor a content-hash replace is the reason. -/
theorem C3_add_pattern_never_writes :
    (∀ (enc : String → List ℚ) (fid : String) (p : PatternDict) (sev : String)
        (q : ℚ) (fc : ℤ) (ti sl pc : String) (s : DBState),
        (add_pattern enc fid p sev q fc ti sl pc s).1 = false
        ∧ ((add_pattern enc fid p sev q fc ti sl pc s).2).rows = s.rows)
    ∧ ((add_pattern encConst "f2" pEx "High" 0 2 "" "" ""
          ((add_pattern encConst "f1" pEx "High" 0 2 "" "" "" ⟨[], none⟩).2)).2).rows.length = 0 := by
  constructor
  · intro enc fid p sev q fc ti sl pc s
    refine ⟨?_, add_pattern_rows enc fid p sev q fc ti sl pc s⟩
    rw [add_pattern_eq]
  · rfl

theorem natSqrtExact_one : natSqrtExact 1 = some 1 := by decide

theorem ratSqrt_one : ratSqrt 1 = 1 := by
  unfold ratSqrt
  simp [Rat.num_one, Rat.den_one, natSqrtExact_one]

theorem dotQ_one : dotQ [1] [1] = 1 := by
  simp [dotQ]

theorem pySliceLast_single (k : ℕ) : pySliceLast (k * 2) ([0] : List ℕ) = [0] := by
  unfold pySliceLast
  by_cases hk : k * 2 = 0
  · simp [hk]
  · rw [if_neg hk]
    have h0 : 1 - k * 2 = 0 := by omega
    simp [h0]

theorem argsortAsc_single : argsortAsc [1] = [0] := by
  simp [argsortAsc, stableSort, insertBy, List.range_succ]

theorem search_collect_single_err (ids : List String) (e : DataEntry)
    (ph : Option String) :
    search_collect ⟨ids, [[1]], [e]⟩ [1] SIMILARITY_THRESHOLD none ph [0]
      = .error "TypeError: '<=' not supported between instances of 'str' and 'int'" := by
  simp only [search_collect]
  rw [if_neg (show ¬(([1] : List ℚ).getD 0 0 < SIMILARITY_THRESHOLD) by
    norm_num [SIMILARITY_THRESHOLD])]
  simp [calc_rank_boost_error, Bind.bind, Except.bind]

theorem search_core_single_err (query : String) (k : ℕ) (ph : Option String)
    (ids : List String) (e : DataEntry) :
    search_core encConst query k SIMILARITY_THRESHOLD none ph ⟨ids, [[1]], [e]⟩
      = .error "TypeError: '<=' not supported between instances of 'str' and 'int'" := by
  unfold search_core
  rw [if_neg (by simp)]
  dsimp only [encConst]
  have hmap : List.map (fun v =>
      let vn := ratSqrt (dotQ v v)
      if 0 < vn then dotQ v [1] / (vn * ratSqrt (dotQ [1] [1])) else 0)
        ([[1]] : List (List ℚ)) = [1] := by
    simp [dotQ_one, ratSqrt_one]
  rw [hmap, argsortAsc_single, pySliceLast_single]
  rw [show ([0] : List ℕ).reverse = [0] from rfl]
  rw [search_collect_single_err]

/-- C4 counterexample: on a store holding one ordinary pattern (severity
text `"High"`, empty protocol category), a search whose only candidate
passes the similarity threshold does not return a list at all: computing
the rank boost compares the severity text (sitting in the `finders_count`
slot of the cache dict) against an integer and raises `TypeError`. -/
theorem C4_counterexample :
    (search_similar encConst "stale oracle price" 5 none none none ⟨[rowC4], none⟩).1
      = Except.error "TypeError: '<=' not supported between instances of 'str' and 'int'"
    ∧ ∀ l : List SearchResult,
        (search_similar encConst "stale oracle price" 5 none none none ⟨[rowC4], none⟩).1
          ≠ Except.ok l := by
  have h : (search_similar encConst "stale oracle price" 5 none none none ⟨[rowC4], none⟩).1
      = Except.error "TypeError: '<=' not supported between instances of 'str' and 'int'" := by
    show search_core encConst "stale oracle price" 5 SIMILARITY_THRESHOLD none none
        (load_all_vectors_st ⟨[rowC4], none⟩).1 = _
    rw [show (load_all_vectors_st ⟨[rowC4], none⟩).1
        = (⟨["s3"], [[1]], [⟨"s3", "fresh price", "stale round used", [], [1], "High", 1, 0, []⟩]⟩ : VectorCache) from rfl]
    exact search_core_single_err _ _ _ _ _
  refine ⟨h, fun l hl => ?_⟩
  rw [h] at hl
  exact Except.noConfusion hl

/-- C4 (amended): whenever `search_similar` returns a list (rather than
raising), that list has at most `top_k` elements, is sorted in descending
`rank_boost` order, and every element's similarity is at least the
effective `min_score`; a search against an empty store (no rows, cold
cache) returns `[]` without raising. -/
theorem C4_search_structure :
    (∀ (enc : String → List ℚ) (q : String) (k : ℕ) (ms : Option ℚ)
        (vc ph : Option String) (s : DBState) (l : List SearchResult),
        (search_similar enc q k ms vc ph s).1 = .ok l →
          l.length ≤ k
          ∧ List.Pairwise (fun a b => b.rank_boost ≤ a.rank_boost) l
          ∧ ∀ r ∈ l, ms.getD SIMILARITY_THRESHOLD ≤ r.similarity)
    ∧ (∀ (enc : String → List ℚ) (q : String) (k : ℕ) (ms : Option ℚ)
        (vc ph : Option String) (s : DBState), s.rows = [] → s.cache = none →
        (search_similar enc q k ms vc ph s).1 = .ok []) := by
  constructor
  · intro enc q k ms vc ph s l h
    have hcore : search_core enc q k (ms.getD SIMILARITY_THRESHOLD) vc ph
        (load_all_vectors_st s).1 = .ok l := h
    have hnil := search_core_ok_nil hcore
    subst hnil
    exact ⟨by simp, by simp, by simp⟩
  · intro enc q k ms vc ph s hrows hcache
    obtain ⟨rows, cache⟩ := s
    subst hrows
    subst hcache
    rfl

/-- C4 witness: the structural guarantees instantiated on the empty store. -/
theorem C4_witness :
    (search_similar encConst "q" 3 none none none ⟨[], none⟩).1 = Except.ok []
    ∧ (([] : List SearchResult).length ≤ 3
       ∧ List.Pairwise (fun a b => b.rank_boost ≤ a.rank_boost) ([] : List SearchResult)
       ∧ ∀ r ∈ ([] : List SearchResult),
           (none : Option ℚ).getD SIMILARITY_THRESHOLD ≤ r.similarity) := by
  have h2 := C4_search_structure.2 encConst "q" 3 none none none ⟨[], none⟩ rfl rfl
  exact ⟨h2, C4_search_structure.1 encConst "q" 3 none none none ⟨[], none⟩ [] h2⟩

/-- C10 counterexample: the claim's closing clause — the inserted pattern
stays invisible only *until a fresh store instance reloads* — fails
because `add_pattern` never persists anything (its 13-value insert into
the 14-column table always raises and is swallowed): after inserting into
a fresh empty store the row table is still empty, and a fresh instance
reloading those rows returns nothing for the very text that was
inserted. -/
theorem C10_counterexample :
    ((add_pattern encConst "f1" pEx "High" 0 2 "" "" "" ⟨[], none⟩).2).rows = []
    ∧ (search_similar encConst (dedup_text pEx) 5 none none none
        ⟨((add_pattern encConst "f1" pEx "High" 0 2 "" "" "" ⟨[], none⟩).2).rows, none⟩).1
      = Except.ok [] :=
  ⟨rfl, rfl⟩

/-- C10 (amended): once the vector cache is populated, (1) `add_pattern`
leaves it untouched, (2) the result of `search_similar` depends only on
the cache and not on the rows in the store, and (3) every returned match
is drawn from the cache's data entries — so a pattern passed to
`add_pattern` after the first load is invisible to search and to the
duplicate check; moreover (4) `add_pattern` never changes the row table at
all (its insert always fails), so the pattern remains invisible even to a
fresh store instance after a reload, not merely until one. -/
theorem C10_stale_cache :
    (∀ (enc : String → List ℚ) (fid : String) (p : PatternDict) (sev : String)
        (q : ℚ) (fc : ℤ) (ti sl pc : String) (s : DBState) (c : VectorCache),
        s.cache = some c →
        ((add_pattern enc fid p sev q fc ti sl pc s).2).cache = some c)
    ∧ (∀ (enc : String → List ℚ) (q : String) (k : ℕ) (ms : Option ℚ)
        (vc ph : Option String) (rows1 rows2 : List PatternRow) (c : VectorCache),
        (search_similar enc q k ms vc ph ⟨rows1, some c⟩).1
          = (search_similar enc q k ms vc ph ⟨rows2, some c⟩).1)
    ∧ (∀ (enc : String → List ℚ) (q : String) (k : ℕ) (ms : Option ℚ)
        (vc ph : Option String) (s : DBState) (c : VectorCache) (l : List SearchResult),
        s.cache = some c → (search_similar enc q k ms vc ph s).1 = .ok l →
        ∀ r ∈ l, r.entry ∈ c.data)
    ∧ (∀ (enc : String → List ℚ) (fid : String) (p : PatternDict) (sev : String)
        (q : ℚ) (fc : ℤ) (ti sl pc : String) (s : DBState),
        ((add_pattern enc fid p sev q fc ti sl pc s).2).rows = s.rows) := by
  refine ⟨?_, ?_, ?_, ?_⟩
  · intro enc fid p sev q fc ti sl pc s c h
    rw [add_pattern_cache, load_st_of_cache h]
  · intro enc q k ms vc ph rows1 rows2 c
    rfl
  · intro enc q k ms vc ph s c l hc h
    have hcore : search_core enc q k (ms.getD SIMILARITY_THRESHOLD) vc ph
        (load_all_vectors_st s).1 = .ok l := h
    have hnil := search_core_ok_nil hcore
    subst hnil
    intro r hr
    exact absurd hr (List.not_mem_nil r)
  · intro enc fid p sev q fc ti sl pc s
    exact add_pattern_rows enc fid p sev q fc ti sl pc s

/-- C10 witness: instantiations of the four cache-staleness facts at a
concrete populated (empty) cache. -/
theorem C10_witness :
    ((add_pattern encConst "f9" pEx "High" 0 2 "" "" ""
        ⟨[], some ⟨[], [], []⟩⟩).2).cache = some ⟨[], [], []⟩
    ∧ (search_similar encConst "q" 2 none none none ⟨[], some ⟨[], [], []⟩⟩).1
        = (search_similar encConst "q" 2 none none none ⟨[rowC4], some ⟨[], [], []⟩⟩).1
    ∧ (∀ r ∈ ([] : List SearchResult), r.entry ∈ ([] : List DataEntry))
    ∧ ((add_pattern encConst "f9" pEx "High" 0 2 "" "" ""
        ⟨[rowC4], some ⟨[], [], []⟩⟩).2).rows = [rowC4] := by
  refine ⟨C10_stale_cache.1 encConst "f9" pEx "High" 0 2 "" "" "" ⟨[], some ⟨[], [], []⟩⟩ ⟨[], [], []⟩ rfl,
    C10_stale_cache.2.1 encConst "q" 2 none none none [] [rowC4] ⟨[], [], []⟩, ?_,
    C10_stale_cache.2.2.2 encConst "f9" pEx "High" 0 2 "" "" "" ⟨[rowC4], some ⟨[], [], []⟩⟩⟩
  exact C10_stale_cache.2.2.1 encConst "q" 2 none none none ⟨[], some ⟨[], [], []⟩⟩ ⟨[], [], []⟩ [] rfl rfl

/-- C2: the claimed rank boost (similarity + rarity bonus from the stored
`finders_count` + quality bonus from the stored `quality_score` + protocol
bonus) is never computed.  `load_all_vectors` builds the cache dict with
every slot shifted one column (first conjunct: for the stored row with
severity `"Medium"`, `finders_count` 1 and `quality_score` 5, the cached
entry carries `finders_count = "Medium"`, `quality_score = 1`,
`protocol_category = 5`), so `_calculate_rank_boost` compares the severity
text against an integer and the search raises `TypeError` instead of
reporting a rank boost (second conjunct). -/
theorem C2_rank_boost_misindexed :
    (load_all_vectors [rowC2]).data = [entryC2]
    ∧ (search_similar encConst "reentrancy query" 3 none none none ⟨[rowC2], none⟩).1
        = Except.error "TypeError: '<=' not supported between instances of 'str' and 'int'" := by
  constructor
  · rfl
  · show search_core encConst "reentrancy query" 3 SIMILARITY_THRESHOLD none none
        (load_all_vectors_st ⟨[rowC2], none⟩).1 = _
    rw [show (load_all_vectors_st ⟨[rowC2], none⟩).1
        = (⟨["s1"], [[1]], [entryC2]⟩ : VectorCache) from rfl]
    exact search_core_single_err _ _ _ _ _

/-- C8: with a non-empty vuln-class filter, `search_similar` drops every
otherwise-eligible pattern: the cache dict built by `load_all_vectors` has
no `vuln_class` key, so the filter compares the query class against the
default `""` and never matches.  Here the stored pattern's `vuln_class`
does contain the filter string (second conjunct) and its similarity passes
the threshold, yet the result is empty. -/
theorem C8_vuln_class_filter_drops_all :
    (search_similar encConst "reentrancy external call" 5 none (some "reentrancy") none
        ⟨[rowC8], none⟩).1 = Except.ok []
    ∧ pyInStr (pyLower "reentrancy") (pyLower rowC8.vuln_class) = true := by
  constructor
  · show search_core encConst "reentrancy external call" 5 SIMILARITY_THRESHOLD
        (some "reentrancy") none (load_all_vectors_st ⟨[rowC8], none⟩).1 = _
    rw [show (load_all_vectors_st ⟨[rowC8], none⟩).1
        = (⟨["s2"], [[1]],
            [⟨"s2", "reads before call", "call before write", [], [1], "High", 1, 0, []⟩]⟩
          : VectorCache) from rfl]
    unfold search_core
    rw [if_neg (by simp)]
    dsimp only [encConst]
    have hmap : List.map (fun v =>
        let vn := ratSqrt (dotQ v v)
        if 0 < vn then dotQ v [1] / (vn * ratSqrt (dotQ [1] [1])) else 0)
          ([[1]] : List (List ℚ)) = [1] := by
      simp [dotQ_one, ratSqrt_one]
    rw [hmap, argsortAsc_single, pySliceLast_single]
    rw [show ([0] : List ℕ).reverse = [0] from rfl]
    have hcol : search_collect
        ⟨["s2"], [[1]],
          [⟨"s2", "reads before call", "call before write", [], [1], "High", 1, 0, []⟩]⟩
        [1] SIMILARITY_THRESHOLD (some "reentrancy") none [0] = .ok [] := by
      simp only [search_collect]
      rw [if_neg (show ¬(([1] : List ℚ).getD 0 0 < SIMILARITY_THRESHOLD) by
        norm_num [SIMILARITY_THRESHOLD])]
      simp only [List.get?]
      rw [if_pos (show ((("reentrancy" : String) != "")
        && !(pyInStr (pyLower "reentrancy") (pyLower ""))) = true by decide)]
    rw [hcol]
    rfl
  · decide
